import Mathlib

/-!
Verification of the dodgeball match/combat subsystem.

The definitions below are shallow embeddings of the TypeScript sources:
  * `GameConfig.ts`            - configuration constants
  * `DodgeballPlayerEntity`    - per-player combat state (`eliminate`, `takeDamage`)
  * `GameManager`              - team assignment, alive map, round-end checks
  * `GameModeManager`          - `checkTeamEliminationVictory`
  * `DodgeballEntity.ts`       - projectile state (catch window, bounces, hits)
  * `PowerUpEntity`            - one-shot power-up collection

JavaScript numbers are embedded as `Int` (health) and `Rat` (damage
multipliers, where `Math.floor` matters); timers (`setTimeout`) are embedded
as explicit absolute deadlines fired when the queried instant has passed the
deadline, which is the idealized single-threaded event-loop semantics.
-/

namespace Dodgeball

/-! ## Configuration constants, from `GameConfig.ts` -/

def MIN_PLAYERS_TO_START : Nat := 2
def DODGEBALL_DAMAGE : Int := 100
def DODGEBALL_CATCH_WINDOW_MS : Nat := 250
def DODGEBALL_MAX_BOUNCES : Nat := 3
def PLAYER_HEALTH : Int := 100
def PLAYER_SHIELD : Nat := 50
/-- Embeds `GameConfig.ADVANCED.BOUNCE_DAMAGE_MULTIPLIER = 0.8`. -/
def BOUNCE_DAMAGE_MULTIPLIER : ℚ := 4 / 5

/-! ## Basic enums, from `GameConfig.ts` -/

inductive Team where
  | RED
  | BLUE
deriving DecidableEq, Repr

inductive GState where
  | WAITING
  | STARTING
  | PLAYING
  | ENDING
deriving DecidableEq, Repr

abbrev PlayerId := String

/-! ## Player combat state, from `DodgeballPlayerEntity`

Fields `_isAlive`, `_health`, `_shield`, `_stats.deaths`.  A freshly spawned
player has `_isAlive = true`, `_health = GameConfig.PLAYER_HEALTH`,
`_shield = GameConfig.PLAYER_SHIELD`. -/

structure PlayerState where
  isAlive : Bool
  health : Int
  shield : Nat
  deaths : Nat
deriving DecidableEq, Repr

def spawnedPlayer : PlayerState :=
  { isAlive := true, health := PLAYER_HEALTH, shield := PLAYER_SHIELD, deaths := 0 }

/-- Embeds `DodgeballPlayerEntity.eliminate()`:
early-returns when not alive; when `_shield > 0` it zeroes the shield
(and deletes the SHIELD power-up, not modelled) and returns, leaving the
player alive; otherwise it flips `_isAlive` to false, increments
`_stats.deaths` and notifies `GameManager.instance.eliminatePlayer`
(a cross-component call modelled separately as `eliminatePlayer`). -/
def eliminate (p : PlayerState) : PlayerState :=
  if p.isAlive = false then p
  else if 0 < p.shield then { p with shield := 0 }
  else { p with isAlive := false, deaths := p.deaths + 1 }

/-- Embeds `DodgeballPlayerEntity.takeDamage(damage)`:
`this._health -= damage`, then `if (this._health <= 0) this.eliminate()`. -/
def takeDamage (p : PlayerState) (damage : Int) : PlayerState :=
  let p1 : PlayerState := { p with health := p.health - damage }
  if p1.health ≤ 0 then eliminate p1 else p1

/-! ## Association-list embedding of the JS `Map`s

`GameManager` keeps `_playerTeams : Map<string, Team>`,
`_alivePlayers : Map<string, boolean>`, `_playerEntities : Map<string,
DodgeballPlayerEntity>`.  `mapGet` is `Map.get` (`none` for `undefined`),
`mapSet` is `Map.set` (replace if present, append otherwise). -/

def mapGet {β : Type} (m : List (PlayerId × β)) (k : PlayerId) : Option β :=
  match m with
  | [] => none
  | (k1, v1) :: rest => if k1 = k then some v1 else mapGet rest k

def mapSet {β : Type} (m : List (PlayerId × β)) (k : PlayerId) (v : β) :
    List (PlayerId × β) :=
  match m with
  | [] => [(k, v)]
  | (k1, v1) :: rest => if k1 = k then (k, v) :: rest else (k1, v1) :: mapSet rest k v

/-! ## GameManager state, from `GameModeManager.ts` (class `GameManager`) -/

structure ManagerState where
  playerTeams : List (PlayerId × Team)
  alivePlayers : List (PlayerId × Bool)
  playerEntities : List (PlayerId × PlayerState)
  gameState : GState
deriving DecidableEq, Repr

/-- Embeds the `GameManager._checkForRoundEnd` / `_getTeamAliveCount` counting:
iterate over `_playerTeams` entries, keep those on team `t` whose
`_alivePlayers.get(id)` is truthy (missing key counts as not alive). -/
def teamAliveCount (teams : List (PlayerId × Team)) (alive : List (PlayerId × Bool))
    (t : Team) : Nat :=
  (teams.filter (fun e => e.2 = t ∧ (mapGet alive e.1).getD false = true)).length

/-- Embeds `GameManager._checkForRoundEnd`: during PLAYING, if RED has no alive
members the round ends with BLUE as winner, else if BLUE has none it ends
with RED; otherwise nothing happens.  The result is `some w` when
`_endRound(w)` is invoked (`w = none` would be the draw broadcast) and
`none` when the round continues. -/
def checkForRoundEnd (s : ManagerState) : Option (Option Team) :=
  if s.gameState ≠ GState.PLAYING then none
  else if teamAliveCount s.playerTeams s.alivePlayers Team.RED = 0 then
    some (some Team.BLUE)
  else if teamAliveCount s.playerTeams s.alivePlayers Team.BLUE = 0 then
    some (some Team.RED)
  else none

/-- Embeds the `GameModeManager.checkTeamEliminationVictory` counting: iterate over
`alivePlayers` entries, keep the alive ones whose `playerTeams.get(id)`
is team `t`. -/
def modeAliveCount (alive : List (PlayerId × Bool)) (teams : List (PlayerId × Team))
    (t : Team) : Nat :=
  (alive.filter (fun e => e.2 = true ∧ mapGet teams e.1 = some t)).length

/-- Embeds `GameModeManager.checkTeamEliminationVictory`:
`RED = 0 ∧ BLUE > 0 ↦ BLUE`, `BLUE = 0 ∧ RED > 0 ↦ RED`, else `null`. -/
def checkTeamEliminationVictory (alive : List (PlayerId × Bool))
    (teams : List (PlayerId × Team)) : Option Team :=
  if modeAliveCount alive teams Team.RED = 0 ∧ 0 < modeAliveCount alive teams Team.BLUE
  then some Team.BLUE
  else if modeAliveCount alive teams Team.BLUE = 0 ∧ 0 < modeAliveCount alive teams Team.RED
  then some Team.RED
  else none

/-- Embeds `GameManager.eliminatePlayer(player)`: looks the entity up; returns with
no change when the entity is missing or its shield is positive (the shield
"absorbs" — note the entity, hence its shield, is left untouched here);
otherwise marks the alive-map entry false and runs `_checkForRoundEnd`.
The returned option is the `_endRound` argument when a round end fires. -/
def eliminatePlayer (s : ManagerState) (pid : PlayerId) :
    ManagerState × Option (Option Team) :=
  match mapGet s.playerEntities pid with
  | none => (s, none)
  | some ent =>
    if 0 < ent.shield then (s, none)
    else
      let s1 : ManagerState := { s with alivePlayers := mapSet s.alivePlayers pid false }
      (s1, checkForRoundEnd s1)

/-! ## Team assignment, from `GameManager._assignTeam` / `handlePlayerJoin` -/

def redCount (m : List (PlayerId × Team)) : Nat :=
  (m.filter (fun e => e.2 = Team.RED)).length

def blueCount (m : List (PlayerId × Team)) : Nat :=
  (m.filter (fun e => e.2 = Team.BLUE)).length

/-- Embeds `GameManager._assignTeam`: `redCount <= blueCount ? RED : BLUE`. -/
def assignTeam (m : List (PlayerId × Team)) : Team :=
  if redCount m ≤ blueCount m then Team.RED else Team.BLUE

/-- The team-map effect of `handlePlayerJoin`:
`this._playerTeams.set(player.id, this._assignTeam())`. -/
def joinPlayer (m : List (PlayerId × Team)) (pid : PlayerId) :
    List (PlayerId × Team) :=
  mapSet m pid (assignTeam m)

def joinAll (m : List (PlayerId × Team)) (pids : List PlayerId) :
    List (PlayerId × Team) :=
  pids.foldl joinPlayer m

/-- Balance predicate `|redCount − blueCount| ≤ 1`. -/
def balanced (m : List (PlayerId × Team)) : Prop :=
  (redCount m : Int) - (blueCount m : Int) ≤ 1 ∧
  (blueCount m : Int) - (redCount m : Int) ≤ 1

instance (m : List (PlayerId × Team)) : Decidable (balanced m) := by
  unfold balanced; infer_instance

/-! ## Dodgeball projectile, from `DodgeballEntity.ts`

Field initializers (lines 16–28): `_thrower = undefined`, `_bounceCount = 0`,
`_canCatch = true`, `_catchWindow = undefined` (no timer armed),
`_damageMultiplier = powerLevel` (constructor).  The catch-window
`setTimeout` is embedded as an absolute deadline `catchDeadline`; firing it
(`fireCatchTimer`) sets `_canCatch = false` once the current instant has
reached the deadline.  `spawned` mirrors `this.world`/`isSpawned`. -/

structure BallState where
  thrower : Option PlayerId
  bounceCount : Nat
  canCatch : Bool
  catchDeadline : Option Nat
  damageMultiplier : ℚ
  powerLevel : ℚ
  spawned : Bool
deriving DecidableEq, Repr

/-- Embeds `new DodgeballEntity(powerLevel)` followed by `spawn`. -/
def mkBall (powerLevel : ℚ) : BallState :=
  { thrower := none, bounceCount := 0, canCatch := true, catchDeadline := none,
    damageMultiplier := powerLevel, powerLevel := powerLevel, spawned := true }

/-- The `_startCatchWindow` timer callback: at any instant `now` past the
armed deadline, `_canCatch = false` and the handle is cleared. -/
def fireCatchTimer (now : Nat) (b : BallState) : BallState :=
  match b.catchDeadline with
  | some d => if d ≤ now then { b with canCatch := false, catchDeadline := none } else b
  | none => b

/-- Embeds `canBeCaught(): return this._canCatch && this._bounceCount === 0;`. -/
def canBeCaught (b : BallState) : Bool :=
  b.canCatch && b.bounceCount == 0

/-- Evaluates `canBeCaught()` at instant `now` (due timers having fired). -/
def canBeCaughtAt (now : Nat) (b : BallState) : Bool :=
  canBeCaught (fireCatchTimer now b)

/-- Embeds `throw(thrower, direction, force)` at instant `now`: no-op when not in a
world; otherwise records the thrower, resets `_bounceCount` to 0 and
`_canCatch` to true, and `_startCatchWindow()` arms the catch-window timer
for `DODGEBALL_CATCH_WINDOW_MS` from now (impulse/audio are host effects). -/
def throwBall (now : Nat) (th : PlayerId) (b : BallState) : BallState :=
  if b.spawned = false then b
  else
    { b with thrower := some th, bounceCount := 0, canCatch := true,
             catchDeadline := some (now + DODGEBALL_CATCH_WINDOW_MS) }

/-- Embeds `_onBlockCollision`: increments `_bounceCount`; once it reaches
`DODGEBALL_MAX_BOUNCES` it clears `_canCatch` and the pending catch-window
timer; every bounce multiplies `_damageMultiplier` by
`BOUNCE_DAMAGE_MULTIPLIER`. -/
def blockCollision (b : BallState) : BallState :=
  let b1 : BallState := { b with bounceCount := b.bounceCount + 1 }
  let b2 : BallState :=
    if DODGEBALL_MAX_BOUNCES ≤ b1.bounceCount then
      { b1 with canCatch := false, catchDeadline := none }
    else b1
  { b2 with damageMultiplier := b2.damageMultiplier * BOUNCE_DAMAGE_MULTIPLIER }

/-- Embeds `despawn()`: clears the catch-window timer and leaves the world. -/
def despawnBall (b : BallState) : BallState :=
  { b with spawned := false, catchDeadline := none }

/-- Embeds `finalDamage = Math.floor(DODGEBALL_DAMAGE * damageMultiplier * powerLevel)`
from `_handlePlayerHit`. -/
def finalDamage (b : BallState) : Int :=
  Rat.floor ((DODGEBALL_DAMAGE : ℚ) * b.damageMultiplier * b.powerLevel)

/-- Embeds `attemptElimination(player, damage)`: false when not in a world or no
thrower; false — with the player state untouched, in particular the shield
is NOT consumed — when `player.shield > 0`; otherwise calls
`player.eliminate()` and reports true. -/
def attemptElimination (b : BallState) (target : PlayerState) : Bool × PlayerState :=
  if b.spawned = false ∨ b.thrower = none then (false, target)
  else if 0 < target.shield then (false, target)
  else (true, eliminate target)

/-- Embeds `_handlePlayerHit(player)`: no-op without world/thrower; at
`_bounceCount >= DODGEBALL_MAX_BOUNCES` the ball only knocks back (a host
impulse, no state change on the target) and despawns; at `_bounceCount == 0`
it attempts a direct-hit elimination and despawns; otherwise it applies
`finalDamage` through `player.takeDamage` and despawns. -/
def handlePlayerHit (b : BallState) (target : PlayerState) : PlayerState × BallState :=
  if b.spawned = false ∨ b.thrower = none then (target, b)
  else if DODGEBALL_MAX_BOUNCES ≤ b.bounceCount then (target, despawnBall b)
  else if b.bounceCount = 0 then ((attemptElimination b target).2, despawnBall b)
  else (takeDamage target (finalDamage b), despawnBall b)

/-- Embeds `_onEntityCollision` (target entity already known to be a player):
skips the thrower while `_bounceCount === 0`, skips dead targets,
otherwise resolves `_handlePlayerHit`. -/
def onEntityCollision (b : BallState) (targetId : PlayerId) (target : PlayerState) :
    PlayerState × BallState :=
  if b.thrower = some targetId ∧ b.bounceCount = 0 then (target, b)
  else if target.isAlive = false then (target, b)
  else handlePlayerHit b target

/-- Embeds `catch(catcher)` at instant `now`, given the thrower's combat state (if
the thrower entity exists): no-op unless `canBeCaught()` and in a world;
eliminates the still-alive thrower when the catcher is someone else; then
despawns the ball. -/
def catchBall (now : Nat) (b0 : BallState) (catcherId : PlayerId)
    (throwerSt : Option PlayerState) : Option PlayerState × BallState :=
  let b := fireCatchTimer now b0
  if canBeCaught b = false ∨ b.spawned = false then (throwerSt, b)
  else
    let throwerSt1 :=
      match b.thrower, throwerSt with
      | some th, some ts =>
        if th ≠ catcherId ∧ ts.isAlive = true then some (eliminate ts) else some ts
      | _, _ => throwerSt
    (throwerSt1, despawnBall b)

/-! Event-trace view of one ball's lifetime, used for the temporal claims:
a throw, block collisions and player hits, in any order the host delivers
them. -/

inductive BallEvent where
  | throwEv (now : Nat) (th : PlayerId)
  | blockEv
  | hitEv (targetId : PlayerId) (target : PlayerState)
deriving DecidableEq, Repr

def ballStep (b : BallState) (e : BallEvent) : BallState :=
  match e with
  | .throwEv now th => throwBall now th b
  | .blockEv => blockCollision b
  | .hitEv tid t => (onEntityCollision b tid t).2

def ballRun (b : BallState) (evs : List BallEvent) : BallState :=
  evs.foldl ballStep b

def isThrowEv : BallEvent → Bool
  | .throwEv _ _ => true
  | _ => false

/-! ## Power-up entity, from `PowerUpEntity`

`collect` checks the one-shot `_collected` flag (and the world) and sets the
flag synchronously, BEFORE its only asynchronous suspension
(`await this.applyPowerUpEffect(player)`); the effect application and the
despawn happen when that asynchronous remainder resumes.  The embedding
therefore splits a collection in two: `powerUpCollision` is the synchronous
prefix of the collision callback (guard in `spawn` plus the guard and
flag-set in `collect`), and `PEvent.finish` is the resumption completing the
pending collection (effect application + despawn).  Collision callbacks
delivered between the two phases see `_collected = true`. -/

structure PowerUpState where
  collected : Bool
  spawned : Bool
  /-- collectors whose `collect` passed the guard but whose asynchronous
  remainder has not yet resumed (at most one, which the theorems prove) -/
  pending : List PlayerId
  /-- players that received the effect, in order -/
  effectApplied : List PlayerId
  despawnCount : Nat
deriving DecidableEq, Repr

/-- A freshly spawned, uncollected power-up. -/
def puInit : PowerUpState :=
  { collected := false, spawned := true, pending := [], effectApplied := [],
    despawnCount := 0 }

inductive PEvent where
  | coll (pid : PlayerId)
  | finish
deriving DecidableEq, Repr

/-- One event: a collision callback (synchronous part: the `spawn` handler's
`!this._collected` guard, then `collect`'s `if (this._collected || !this.world)
return;` and `this._collected = true;`), or the resumption of the pending
asynchronous remainder of `collect` (apply effect, clear despawn timer,
despawn). -/
def powerUpStep (s : PowerUpState) (e : PEvent) : PowerUpState :=
  match e with
  | .coll pid =>
    if s.spawned = false ∨ s.collected = true then s
    else { s with collected := true, pending := s.pending ++ [pid] }
  | .finish =>
    match s.pending with
    | [] => s
    | pid :: rest =>
      { s with pending := rest, effectApplied := s.effectApplied ++ [pid],
               despawnCount := s.despawnCount + 1, spawned := false }

def powerUpRun (s : PowerUpState) (evs : List PEvent) : PowerUpState :=
  evs.foldl powerUpStep s

/-- The first collision callback in a trace, if any. -/
def firstColl (evs : List PEvent) : Option PlayerId :=
  match evs with
  | [] => none
  | .coll pid :: _ => some pid
  | .finish :: rest => firstColl rest

/-! ## Shared helper lemmas -/

theorem eliminate_health (p : PlayerState) : (eliminate p).health = p.health := by
  unfold eliminate
  split
  · rfl
  · split <;> rfl

theorem eliminate_of_not_alive (p : PlayerState) (h : p.isAlive = false) :
    eliminate p = p := by
  unfold eliminate
  rw [if_pos h]

theorem eliminate_alive_shielded (p : PlayerState) (ha : p.isAlive = true)
    (hs : 0 < p.shield) : eliminate p = { p with shield := 0 } := by
  unfold eliminate
  rw [if_neg (by simp [ha]), if_pos hs]

theorem eliminate_alive_unshielded (p : PlayerState) (ha : p.isAlive = true)
    (hs : p.shield = 0) :
    eliminate p = { p with isAlive := false, deaths := p.deaths + 1 } := by
  unfold eliminate
  rw [if_neg (by simp [ha]), if_neg (by simp [hs])]

/-! ## C7 -/

/-- C7, the claim as stated fails: `takeDamage` has no floor, so health goes
negative.  A freshly spawned player (health 100, shield 50) hit for 320
damage (a once-bounced power-2 ball) ends at health −220 < 0. -/
theorem C7_counterexample :
    (takeDamage spawnedPlayer 320).health = -220 ∧
    (takeDamage spawnedPlayer 320).health < 0 := by
  decide

/-- C7 (amended): `takeDamage(amount)` decrements health by exactly `amount`
(in every branch), triggers `eliminate()` — observable as the alive flag
dropping, for an alive shieldless player — exactly when the resulting health
is ≤ 0, and performs no other change when the resulting health is positive;
but the health value itself may become negative (there is no clamp). -/
theorem C7_take_damage_spec (p : PlayerState) (d : Int) :
    (takeDamage p d).health = p.health - d ∧
    (p.isAlive = true → p.shield = 0 →
      ((takeDamage p d).isAlive = false ↔ p.health - d ≤ 0)) ∧
    (0 < p.health - d → takeDamage p d = { p with health := p.health - d }) := by
  unfold takeDamage
  by_cases h : p.health - d ≤ 0
  · rw [if_pos h]
    refine ⟨by rw [eliminate_health], fun ha hs => ?_, fun hpos => absurd h (by omega)⟩
    rw [eliminate_alive_unshielded _ (by simpa using ha) (by simpa using hs)]
    simpa using h
  · rw [if_neg h]
    exact ⟨rfl, fun ha hs => by simpa [ha] using h, fun _ => rfl⟩

theorem C7_take_damage_spec_witness :
    (takeDamage (PlayerState.mk true 100 0 0) 40).health = 60 ∧
    ((takeDamage (PlayerState.mk true 100 0 0) 40).isAlive = false ↔
      (100 : Int) - 40 ≤ 0) ∧
    takeDamage (PlayerState.mk true 100 0 0) 40 = PlayerState.mk true 60 0 0 := by
  have h := C7_take_damage_spec (PlayerState.mk true 100 0 0) 40
  exact ⟨by simpa using h.1, h.2.1 rfl rfl, by simpa using h.2.2 (by decide)⟩

/-! ## C4 -/

/-- C4, the claim as stated fails: a freshly spawned player has shield 50,
so the first `eliminate()` call only consumes the shield and the second call
is not a no-op — it flips the alive flag. -/
theorem C4_counterexample :
    (eliminate spawnedPlayer).isAlive = true ∧
    eliminate (eliminate spawnedPlayer) ≠ eliminate spawnedPlayer ∧
    (eliminate (eliminate spawnedPlayer)).isAlive = false := by
  decide

/-- C4 (amended): on any sequence of `eliminate` calls within one round the
alive flag transitions true→false at most once and the deaths statistic
increments at most once, and every call made after the flag has flipped is a
no-op; when the player's shield is 0 at the first call, only the first call
has any effect (all later iterates equal the first); when the shield is
positive, the first call only zeroes the shield and it is the second call
that flips the flag and increments deaths, after which all calls are
no-ops. -/
theorem C4_eliminate_idempotence (p : PlayerState) (n : Nat) (ha : p.isAlive = true) :
    (∀ q : PlayerState, q.isAlive = false → eliminate q = q) ∧
    (p.shield = 0 →
      eliminate^[n + 1] p = eliminate p ∧
      (eliminate p).isAlive = false ∧ (eliminate p).deaths = p.deaths + 1) ∧
    (0 < p.shield →
      (eliminate p).isAlive = true ∧ (eliminate p).deaths = p.deaths ∧
      (eliminate p).shield = 0 ∧
      eliminate^[n + 2] p = eliminate (eliminate p) ∧
      (eliminate (eliminate p)).isAlive = false ∧
      (eliminate (eliminate p)).deaths = p.deaths + 1) := by
  refine ⟨eliminate_of_not_alive, fun hs => ?_, fun hs => ?_⟩
  · rw [eliminate_alive_unshielded p ha hs]
    refine ⟨?_, rfl, rfl⟩
    rw [Function.iterate_succ_apply, eliminate_alive_unshielded p ha hs,
      Function.iterate_fixed (eliminate_of_not_alive _ rfl)]
  · have h1 : eliminate p = { p with shield := 0 } := eliminate_alive_shielded p ha hs
    have h2 : eliminate { p with shield := 0 } =
        { p with shield := 0, isAlive := false, deaths := p.deaths + 1 } :=
      eliminate_alive_unshielded _ ha rfl
    have hfix : eliminate (eliminate (eliminate p)) = eliminate (eliminate p) := by
      rw [h1, h2]
      exact eliminate_of_not_alive _ rfl
    refine ⟨by rw [h1]; exact ha, by rw [h1], by rw [h1], ?_, by rw [h1, h2],
      by rw [h1, h2]⟩
    calc eliminate^[n + 2] p = eliminate^[n] (eliminate (eliminate p)) := by
          rw [Function.iterate_succ_apply, Function.iterate_succ_apply]
      _ = eliminate (eliminate p) := Function.iterate_fixed hfix n

theorem C4_eliminate_idempotence_witness :
    eliminate^[4] (PlayerState.mk true 100 0 0) = eliminate (PlayerState.mk true 100 0 0) ∧
    (eliminate (PlayerState.mk true 100 0 0)).deaths = 1 ∧
    eliminate^[5] spawnedPlayer = eliminate (eliminate spawnedPlayer) := by
  have h1 := C4_eliminate_idempotence (PlayerState.mk true 100 0 0) 3 rfl
  have h2 := C4_eliminate_idempotence spawnedPlayer 3 rfl
  exact ⟨(h1.2.1 rfl).1, (h1.2.1 rfl).2.2, (h2.2.2 (by decide)).2.2.2.1⟩

/-! ## C1 -/

/-- C1, the claim as stated fails: on the projectile's direct-hit path
(`attemptElimination`) a shielded player survives but the shield is NOT
zeroed — a freshly spawned player (shield 50) still has shield 50 after the
attempt. -/
theorem C1_counterexample :
    0 < spawnedPlayer.shield ∧
    (attemptElimination (throwBall 0 "thrower" (mkBall 1)) spawnedPlayer).2
      = spawnedPlayer ∧
    (attemptElimination (throwBall 0 "thrower" (mkBall 1)) spawnedPlayer).2.shield
      = 50 := by
  decide

/-- C1 (amended): a player with positive shield survives every elimination
attempt — alive flag and health unchanged — on all three paths; but only the
player entity's own `eliminate()` consumes the shield to 0; the projectile's
`attemptElimination` and the manager's `eliminatePlayer` return early and
leave the shield at its prior positive value (and the manager state
unchanged). -/
theorem C1_shield_interception (p : PlayerState) (b : BallState) (s : ManagerState)
    (pid : PlayerId) (hs : 0 < p.shield) (ha : p.isAlive = true)
    (hb : b.spawned = true) (ht : b.thrower ≠ none)
    (hent : mapGet s.playerEntities pid = some p) :
    ((eliminate p).isAlive = true ∧ (eliminate p).health = p.health ∧
      (eliminate p).shield = 0 ∧ (eliminate p).deaths = p.deaths) ∧
    attemptElimination b p = (false, p) ∧
    eliminatePlayer s pid = (s, none) := by
  refine ⟨?_, ?_, ?_⟩
  · rw [eliminate_alive_shielded p ha hs]
    exact ⟨ha, rfl, rfl, rfl⟩
  · unfold attemptElimination
    rw [if_neg (by simp [hb, ht]), if_pos hs]
  · unfold eliminatePlayer
    rw [hent]
    simp only [if_pos hs]

theorem C1_shield_interception_witness :
    ((eliminate spawnedPlayer).isAlive = true ∧
      (eliminate spawnedPlayer).shield = 0) ∧
    attemptElimination (throwBall 0 "t" (mkBall 1)) spawnedPlayer
      = (false, spawnedPlayer) ∧
    eliminatePlayer
        (ManagerState.mk [("p1", Team.RED)] [("p1", true)]
          [("p1", spawnedPlayer)] GState.PLAYING) "p1"
      = (ManagerState.mk [("p1", Team.RED)] [("p1", true)]
          [("p1", spawnedPlayer)] GState.PLAYING, none) := by
  have h := C1_shield_interception spawnedPlayer (throwBall 0 "t" (mkBall 1))
    (ManagerState.mk [("p1", Team.RED)] [("p1", true)]
      [("p1", spawnedPlayer)] GState.PLAYING) "p1"
    (by decide) rfl (by decide) (by decide) (by decide)
  exact ⟨⟨h.1.1, h.1.2.2.1⟩, h.2.1, h.2.2⟩

/-! ## C2 -/

/-- C2, the claim as stated fails: with one RED and one BLUE player both
eliminated (mutual elimination in the same tick), `_checkForRoundEnd` checks
the RED count first and so declares BLUE the winner — a team IS named; it is
not the draw the claim requires. -/
theorem C2_counterexample :
    checkForRoundEnd
        (ManagerState.mk [("p1", Team.RED), ("p2", Team.BLUE)]
          [("p1", false), ("p2", false)] [] GState.PLAYING)
      = some (some Team.BLUE) ∧
    some Team.BLUE ≠ (none : Option Team) := by
  decide

/-- C2 (amended): during PLAYING, `_checkForRoundEnd` with RED at 0 alive
always ends the round declaring BLUE winner (this covers both BLUE > 0 and
the mutual-zero case — so mutual elimination resolves to a single defined
outcome, BLUE declared winner, with no exception, rather than a draw), with
BLUE at 0 and RED > 0 it declares RED, and with both positive the round
continues; `GameModeManager.checkTeamEliminationVictory`, by contrast,
returns BLUE only when RED = 0 < BLUE, RED only when BLUE = 0 < RED, and no
winner (null) on mutual zero. -/
theorem C2_round_end_determinism (s : ManagerState) (hp : s.gameState = GState.PLAYING)
    (alive : List (PlayerId × Bool)) (teams : List (PlayerId × Team)) :
    (teamAliveCount s.playerTeams s.alivePlayers Team.RED = 0 →
      checkForRoundEnd s = some (some Team.BLUE)) ∧
    (0 < teamAliveCount s.playerTeams s.alivePlayers Team.RED →
      teamAliveCount s.playerTeams s.alivePlayers Team.BLUE = 0 →
      checkForRoundEnd s = some (some Team.RED)) ∧
    (0 < teamAliveCount s.playerTeams s.alivePlayers Team.RED →
      0 < teamAliveCount s.playerTeams s.alivePlayers Team.BLUE →
      checkForRoundEnd s = none) ∧
    (modeAliveCount alive teams Team.RED = 0 →
      0 < modeAliveCount alive teams Team.BLUE →
      checkTeamEliminationVictory alive teams = some Team.BLUE) ∧
    (modeAliveCount alive teams Team.BLUE = 0 →
      0 < modeAliveCount alive teams Team.RED →
      checkTeamEliminationVictory alive teams = some Team.RED) ∧
    (modeAliveCount alive teams Team.RED = 0 →
      modeAliveCount alive teams Team.BLUE = 0 →
      checkTeamEliminationVictory alive teams = none) := by
  have hne : ¬ s.gameState ≠ GState.PLAYING := by simp [hp]
  refine ⟨fun hr => ?_, fun hr hb => ?_, fun hr hb => ?_,
    fun hr hb => ?_, fun hb hr => ?_, fun hr hb => ?_⟩
  · unfold checkForRoundEnd
    rw [if_neg hne, if_pos hr]
  · unfold checkForRoundEnd
    rw [if_neg hne, if_neg (by omega), if_pos hb]
  · unfold checkForRoundEnd
    rw [if_neg hne, if_neg (by omega), if_neg (by omega)]
  · unfold checkTeamEliminationVictory
    rw [if_pos ⟨hr, hb⟩]
  · unfold checkTeamEliminationVictory
    rw [if_neg (by omega), if_pos ⟨hb, hr⟩]
  · unfold checkTeamEliminationVictory
    rw [if_neg (by omega), if_neg (by omega)]

theorem C2_round_end_determinism_witness :
    checkForRoundEnd
        (ManagerState.mk [("p1", Team.RED), ("p2", Team.BLUE)]
          [("p1", false), ("p2", true)] [] GState.PLAYING)
      = some (some Team.BLUE) ∧
    checkTeamEliminationVictory [("p1", false), ("p2", false)]
        [("p1", Team.RED), ("p2", Team.BLUE)]
      = none := by
  have h := C2_round_end_determinism
    (ManagerState.mk [("p1", Team.RED), ("p2", Team.BLUE)]
      [("p1", false), ("p2", true)] [] GState.PLAYING) rfl
    [("p1", false), ("p2", false)] [("p1", Team.RED), ("p2", Team.BLUE)]
  exact ⟨h.1 (by decide), h.2.2.2.2.2 (by decide) (by decide)⟩

/-! ## C3 -/

/-- C3: the code violates the claim (and its own comment "Bounced hit -
apply damage but don't eliminate"): a power-1 ball that bounced once
(`bounceCount = 1`, below `DODGEBALL_MAX_BOUNCES = 3`) deals
`floor(100 · 0.8) = 80` damage through `takeDamage`, which calls
`eliminate()` once health drops to ≤ 0 — so a target with health 20 and no
shield is eliminated by the supposedly non-eliminating bounced hit. -/
theorem C3_bounced_hit_eliminates :
    (blockCollision (throwBall 0 "A" (mkBall 1))).bounceCount = 1 ∧
    1 < DODGEBALL_MAX_BOUNCES ∧
    finalDamage (blockCollision (throwBall 0 "A" (mkBall 1))) = 80 ∧
    ((onEntityCollision (blockCollision (throwBall 0 "A" (mkBall 1))) "B"
        (PlayerState.mk true 20 0 0)).1).isAlive = false := by
  have hdm : finalDamage (blockCollision (throwBall 0 "A" (mkBall 1)))
      = Rat.floor (((100 : ℤ) : ℚ) * (1 * (4 / 5)) * 1) := rfl
  have hq : (((100 : ℤ) : ℚ) * (1 * (4 / 5)) * 1) = ((80 : ℤ) : ℚ) := by norm_num
  have h80 : finalDamage (blockCollision (throwBall 0 "A" (mkBall 1))) = 80 := by
    rw [hdm, hq]
    exact Int.floor_intCast (α := ℚ) 80
  have hstep : (onEntityCollision (blockCollision (throwBall 0 "A" (mkBall 1))) "B"
        (PlayerState.mk true 20 0 0)).1
      = takeDamage (PlayerState.mk true 20 0 0)
          (finalDamage (blockCollision (throwBall 0 "A" (mkBall 1)))) := rfl
  refine ⟨rfl, by decide, h80, ?_⟩
  rw [hstep, h80]
  decide

/-! ## Ball helper lemmas -/

theorem blockCollision_bounceCount (b : BallState) :
    (blockCollision b).bounceCount = b.bounceCount + 1 := by
  simp only [blockCollision]
  split <;> rfl

theorem fireCatchTimer_bounceCount (now : Nat) (b : BallState) :
    (fireCatchTimer now b).bounceCount = b.bounceCount := by
  unfold fireCatchTimer
  rcases b.catchDeadline with _ | d
  · rfl
  · dsimp only
    split <;> rfl

theorem despawnBall_bounceCount (b : BallState) :
    (despawnBall b).bounceCount = b.bounceCount := rfl

theorem handlePlayerHit_ball_bounceCount (b : BallState) (t : PlayerState) :
    ((handlePlayerHit b t).2).bounceCount = b.bounceCount := by
  unfold handlePlayerHit
  split
  · rfl
  · split
    · rfl
    · split <;> rfl

theorem onEntityCollision_ball_bounceCount (b : BallState) (tid : PlayerId)
    (t : PlayerState) : ((onEntityCollision b tid t).2).bounceCount = b.bounceCount := by
  unfold onEntityCollision
  split
  · rfl
  · split
    · rfl
    · exact handlePlayerHit_ball_bounceCount b t

theorem iterate_blockCollision_bounceCount (k : Nat) (b : BallState) :
    (blockCollision^[k] b).bounceCount = b.bounceCount + k := by
  induction k generalizing b with
  | zero => rfl
  | succ k ih =>
    rw [Function.iterate_succ_apply, ih, blockCollision_bounceCount]
    omega

/-! ## C5 -/

/-- C5 (confirmed): for a thrown ball (throw at instant `t0`, followed by any
number `k` of block collisions), observed at any instant `now ≥ t0`,
`canBeCaught()` is true if and only if the bounce count is 0 AND the elapsed
time since the throw is below `DODGEBALL_CATCH_WINDOW_MS`; each condition
alone is therefore necessary. -/
theorem C5_catchable_iff (b : BallState) (t0 now : Nat) (th : PlayerId) (k : Nat)
    (hsp : b.spawned = true) (hle : t0 ≤ now) :
    canBeCaughtAt now (blockCollision^[k] (throwBall t0 th b)) = true ↔
      ((blockCollision^[k] (throwBall t0 th b)).bounceCount = 0 ∧
        now - t0 < DODGEBALL_CATCH_WINDOW_MS) := by
  have hthrow : throwBall t0 th b
      = { b with thrower := some th, bounceCount := 0, canCatch := true,
                 catchDeadline := some (t0 + DODGEBALL_CATCH_WINDOW_MS) } := by
    unfold throwBall
    rw [if_neg (by simp [hsp])]
  have hbc : (blockCollision^[k] (throwBall t0 th b)).bounceCount = k := by
    rw [iterate_blockCollision_bounceCount, hthrow]
    show 0 + k = k
    omega
  cases k with
  | zero =>
    rw [Function.iterate_zero_apply] at hbc ⊢
    unfold canBeCaughtAt fireCatchTimer
    rw [hthrow]
    dsimp only
    constructor
    · intro h
      refine ⟨rfl, ?_⟩
      by_contra hwin
      rw [if_pos (by omega)] at h
      simp [canBeCaught] at h
    · intro ⟨_, hwin⟩
      rw [if_neg (by omega)]
      rfl
  | succ j =>
    have hb2 : (fireCatchTimer now (blockCollision^[j + 1] (throwBall t0 th b))).bounceCount
        = j + 1 := by
      rw [fireCatchTimer_bounceCount, hbc]
    constructor
    · intro h
      unfold canBeCaughtAt canBeCaught at h
      rw [Bool.and_eq_true] at h
      have h2 : (fireCatchTimer now (blockCollision^[j + 1]
          (throwBall t0 th b))).bounceCount = 0 := by
        simpa using h.2
      rw [hb2] at h2
      exact absurd h2 (Nat.succ_ne_zero j)
    · intro h
      rw [hbc] at h
      exact absurd h.1 (Nat.succ_ne_zero j)

theorem C5_catchable_iff_witness :
    (canBeCaughtAt 100 (blockCollision^[0] (throwBall 0 "A" (mkBall 1))) = true ↔
      ((blockCollision^[0] (throwBall 0 "A" (mkBall 1))).bounceCount = 0 ∧
        100 - 0 < DODGEBALL_CATCH_WINDOW_MS)) ∧
    canBeCaughtAt 100 (blockCollision^[0] (throwBall 0 "A" (mkBall 1))) = true := by
  refine ⟨C5_catchable_iff (mkBall 1) 0 100 "A" 0 rfl (by omega), ?_⟩
  decide

/-! ## C6 -/

/-- A player hit resolved while `_bounceCount ≥ DODGEBALL_MAX_BOUNCES` leaves
the target's combat state completely unchanged (knockback is a host-physics
impulse only): no damage, no elimination. -/
theorem hit_after_max_bounces (b : BallState) (tid : PlayerId) (t : PlayerState)
    (h : DODGEBALL_MAX_BOUNCES ≤ b.bounceCount) :
    (onEntityCollision b tid t).1 = t := by
  unfold onEntityCollision
  by_cases h1 : b.thrower = some tid ∧ b.bounceCount = 0
  · rw [if_pos h1]
  · rw [if_neg h1]
    by_cases h2 : t.isAlive = false
    · rw [if_pos h2]
    · rw [if_neg h2]
      unfold handlePlayerHit
      by_cases h3 : b.spawned = false ∨ b.thrower = none
      · rw [if_pos h3]
      · rw [if_neg h3, if_pos h]

theorem ballStep_bounce_mono (b : BallState) (e : BallEvent)
    (he : isThrowEv e = false) : b.bounceCount ≤ (ballStep b e).bounceCount := by
  cases e with
  | throwEv now th => simp [isThrowEv] at he
  | blockEv =>
    show b.bounceCount ≤ (blockCollision b).bounceCount
    rw [blockCollision_bounceCount]
    omega
  | hitEv tid t =>
    show b.bounceCount ≤ ((onEntityCollision b tid t).2).bounceCount
    rw [onEntityCollision_ball_bounceCount]

theorem ballRun_bounce_mono (b : BallState) (evs : List BallEvent)
    (h : ∀ e ∈ evs, isThrowEv e = false) :
    b.bounceCount ≤ (ballRun b evs).bounceCount := by
  induction evs generalizing b with
  | nil => exact Nat.le_refl _
  | cons e rest ih =>
    have h1 : b.bounceCount ≤ (ballStep b e).bounceCount :=
      ballStep_bounce_mono b e (h e (List.mem_cons_self e rest))
    have h2 := ih (ballStep b e) (fun x hx => h x (List.mem_cons_of_mem e hx))
    exact Nat.le_trans h1 h2

/-- C6 (confirmed): once a ball's bounce count has reached
`DODGEBALL_MAX_BOUNCES`, then after any further host-delivered events that do
not re-throw the ball (block collisions, player hits), any player collision
resolves with the target's combat state unchanged — no damage and no
elimination, for every damage multiplier and power level (which are
arbitrary in `b`). -/
theorem C6_max_bounces_never_eliminates (b : BallState) (evs : List BallEvent)
    (tid : PlayerId) (target : PlayerState)
    (hmax : DODGEBALL_MAX_BOUNCES ≤ b.bounceCount)
    (hnothrow : ∀ e ∈ evs, isThrowEv e = false) :
    (onEntityCollision (ballRun b evs) tid target).1 = target := by
  exact hit_after_max_bounces _ tid target
    (Nat.le_trans hmax (ballRun_bounce_mono b evs hnothrow))

theorem C6_max_bounces_never_eliminates_witness :
    (onEntityCollision
        (ballRun (blockCollision^[3] (throwBall 0 "A" (mkBall 1)))
          [BallEvent.blockEv, BallEvent.hitEv "C" (PlayerState.mk true 100 0 0)])
        "B" (PlayerState.mk true 5 0 0)).1
      = PlayerState.mk true 5 0 0 := by
  exact C6_max_bounces_never_eliminates (blockCollision^[3] (throwBall 0 "A" (mkBall 1)))
    [BallEvent.blockEv, BallEvent.hitEv "C" (PlayerState.mk true 100 0 0)]
    "B" (PlayerState.mk true 5 0 0)
    (by rw [iterate_blockCollision_bounceCount]; decide)
    (by intro e he; fin_cases he <;> rfl)

/-! ## C8 helper lemmas -/

theorem mapSet_of_fresh {β : Type} (m : List (PlayerId × β)) (k : PlayerId) (v : β)
    (h : mapGet m k = none) : mapSet m k v = m ++ [(k, v)] := by
  induction m with
  | nil => rfl
  | cons e rest ih =>
    unfold mapGet at h
    unfold mapSet
    by_cases hk : e.1 = k
    · rw [if_pos hk] at h
      exact absurd h (by simp)
    · rw [if_neg hk] at h
      rw [if_neg hk, ih h]
      rfl

theorem mapGet_mapSet {β : Type} (m : List (PlayerId × β)) (k q : PlayerId) (v : β) :
    mapGet (mapSet m k v) q = if k = q then some v else mapGet m q := by
  induction m with
  | nil =>
    unfold mapSet mapGet
    split <;> rfl
  | cons e rest ih =>
    obtain ⟨a, w⟩ := e
    by_cases hk : a = k
    · have hset : mapSet ((a, w) :: rest) k v = (k, v) :: rest := by
        simp only [mapSet]
        rw [if_pos hk]
      rw [hset]
      unfold mapGet
      by_cases hq : k = q
      · rw [if_pos hq, if_pos hq]
      · have hne : ¬ a = q := fun h => hq (by rw [← hk, h])
        rw [if_neg hq, if_neg hq, if_neg hne]
    · have hset : mapSet ((a, w) :: rest) k v = (a, w) :: mapSet rest k v := by
        simp only [mapSet]
        rw [if_neg hk]
      rw [hset]
      unfold mapGet
      by_cases he : a = q
      · have hkq : ¬ k = q := fun h => hk (he.trans h.symm)
        rw [if_pos he, if_neg hkq, if_pos he]
      · rw [if_neg he, ih, if_neg he]

theorem redCount_append_single (m : List (PlayerId × Team)) (k : PlayerId) (v : Team) :
    redCount (m ++ [(k, v)]) = redCount m + (if v = Team.RED then 1 else 0) := by
  unfold redCount
  rw [List.filter_append, List.length_append]
  congr 1
  split <;> simp [*]

theorem blueCount_append_single (m : List (PlayerId × Team)) (k : PlayerId) (v : Team) :
    blueCount (m ++ [(k, v)]) = blueCount m + (if v = Team.BLUE then 1 else 0) := by
  unfold blueCount
  rw [List.filter_append, List.length_append]
  congr 1
  split <;> simp [*]

theorem joinPlayer_balanced (m : List (PlayerId × Team)) (pid : PlayerId)
    (hfresh : mapGet m pid = none) (hbal : balanced m) :
    balanced (joinPlayer m pid) := by
  unfold joinPlayer
  rw [mapSet_of_fresh m pid _ hfresh]
  unfold balanced at hbal ⊢
  rw [redCount_append_single, blueCount_append_single]
  by_cases hc : redCount m ≤ blueCount m
  · have ha : assignTeam m = Team.RED := by
      unfold assignTeam
      rw [if_pos hc]
    rw [ha, show (if Team.RED = Team.RED then (1 : Nat) else 0) = 1 from rfl,
      show (if Team.RED = Team.BLUE then (1 : Nat) else 0) = 0 from rfl]
    omega
  · have ha : assignTeam m = Team.BLUE := by
      unfold assignTeam
      rw [if_neg hc]
    rw [ha, show (if Team.BLUE = Team.RED then (1 : Nat) else 0) = 0 from rfl,
      show (if Team.BLUE = Team.BLUE then (1 : Nat) else 0) = 1 from rfl]
    omega

theorem joinAll_balanced (pids : List PlayerId) (m : List (PlayerId × Team))
    (hbal : balanced m) (hfresh : ∀ p ∈ pids, mapGet m p = none)
    (hnd : pids.Nodup) : balanced (joinAll m pids) := by
  induction pids generalizing m with
  | nil => exact hbal
  | cons p rest ih =>
    have hstep : joinAll m (p :: rest) = joinAll (joinPlayer m p) rest := rfl
    rw [hstep]
    have hnd1 := List.nodup_cons.mp hnd
    apply ih (joinPlayer m p)
    · exact joinPlayer_balanced m p (hfresh p (List.mem_cons_self p rest)) hbal
    · intro q hq
      unfold joinPlayer
      rw [mapGet_mapSet]
      rw [if_neg (fun hpq => hnd1.1 (by rw [hpq]; exact hq))]
      exact hfresh q (List.mem_cons_of_mem p hq)
    · exact hnd1.2

/-! ## C8 -/

/-- C8 (confirmed): starting from empty team maps, after any prefix of a
sequence of distinct joins (no intervening leaves) the RED and BLUE counts
differ by at most 1; and whenever the counts are equal at the moment of a
join, `_assignTeam` picks RED (`redCount <= blueCount ? RED : BLUE`). -/
theorem C8_team_balance (pids : List PlayerId) (hnd : pids.Nodup) :
    (∀ n, balanced (joinAll [] (pids.take n))) ∧
    (∀ m : List (PlayerId × Team), redCount m = blueCount m →
      assignTeam m = Team.RED) := by
  constructor
  · intro n
    apply joinAll_balanced
    · exact ⟨by decide, by decide⟩
    · intro p _
      rfl
    · exact hnd.sublist (List.take_sublist n pids)
  · intro m h
    unfold assignTeam
    rw [if_pos (Nat.le_of_eq h)]

theorem C8_team_balance_witness :
    balanced (joinAll [] (["a", "b", "c"].take 2)) ∧
    balanced (joinAll [] ["a", "b", "c"]) ∧
    assignTeam [] = Team.RED := by
  have h := C8_team_balance ["a", "b", "c"] (by decide)
  exact ⟨h.1 2, h.1 3, h.2 [] rfl⟩

/-! ## C9 helper lemmas -/

/-- The state right after a first successful collision's synchronous phase:
flag set, the collector's asynchronous completion pending. -/
def puPending (pid : PlayerId) : PowerUpState :=
  { collected := true, spawned := true, pending := [pid], effectApplied := [],
    despawnCount := 0 }

/-- The state after the pending collection completed: one effect applied to
the first collector, one despawn. -/
def puDone (pid : PlayerId) : PowerUpState :=
  { collected := true, spawned := false, pending := [], effectApplied := [pid],
    despawnCount := 1 }

theorem powerUpRun_after_first (evs : List PEvent) (pid : PlayerId)
    (s : PowerUpState) (hs : s = puPending pid ∨ s = puDone pid) :
    powerUpRun s evs = puPending pid ∨ powerUpRun s evs = puDone pid := by
  induction evs generalizing s with
  | nil => exact hs
  | cons e rest ih =>
    have hstep : powerUpRun s (e :: rest) = powerUpRun (powerUpStep s e) rest := rfl
    rw [hstep]
    apply ih
    rcases hs with h | h
    · subst h
      cases e with
      | coll q => exact Or.inl rfl
      | finish => exact Or.inr rfl
    · subst h
      cases e with
      | coll q => exact Or.inr rfl
      | finish => exact Or.inr rfl

theorem powerUpRun_cases (evs : List PEvent) :
    (powerUpRun puInit evs = puInit ∧ firstColl evs = none) ∨
    (∃ pid, firstColl evs = some pid ∧
      (powerUpRun puInit evs = puPending pid ∨ powerUpRun puInit evs = puDone pid)) := by
  induction evs with
  | nil => exact Or.inl ⟨rfl, rfl⟩
  | cons e rest ih =>
    cases e with
    | coll pid =>
      refine Or.inr ⟨pid, rfl, ?_⟩
      have hstep : powerUpRun puInit (PEvent.coll pid :: rest)
          = powerUpRun (puPending pid) rest := rfl
      rw [hstep]
      exact powerUpRun_after_first rest pid _ (Or.inl rfl)
    | finish =>
      have hstep : powerUpRun puInit (PEvent.finish :: rest)
          = powerUpRun puInit rest := rfl
      have hfc : firstColl (PEvent.finish :: rest) = firstColl rest := rfl
      rw [hstep, hfc]
      exact ih

/-! ## C9 -/

/-- C9 (confirmed): over every sequence of collision callbacks and
asynchronous completions against one power-up instance — including two
collisions delivered back-to-back before the first despawn completes — at
most one effect application and at most one despawn occur, any applied
effect goes to the first colliding player, and once the one-shot `collected`
flag is set (checked before any side effect, set before the asynchronous
work) every later collision callback is a no-op. -/
theorem C9_single_consumption (evs : List PEvent) :
    (powerUpRun puInit evs).effectApplied.length ≤ 1 ∧
    (powerUpRun puInit evs).despawnCount ≤ 1 ∧
    (∀ pid, pid ∈ (powerUpRun puInit evs).effectApplied →
      firstColl evs = some pid) ∧
    ((powerUpRun puInit evs).collected = true →
      ∀ q, powerUpStep (powerUpRun puInit evs) (PEvent.coll q)
        = powerUpRun puInit evs) := by
  rcases powerUpRun_cases evs with ⟨h, _⟩ | ⟨pid, hfc, h | h⟩ <;> rw [h]
  · refine ⟨by decide, by decide, ?_, ?_⟩
    · intro pid hmem
      exact absurd hmem (List.not_mem_nil pid)
    · intro hcol
      exact absurd hcol (by decide)
  · refine ⟨Nat.zero_le 1, Nat.zero_le 1, ?_, ?_⟩
    · intro q hmem
      exact absurd hmem (List.not_mem_nil q)
    · intro _ q
      rfl
  · refine ⟨Nat.le_refl 1, Nat.le_refl 1, ?_, ?_⟩
    · intro q hmem
      have : q = pid := by
        have hlist : (puDone pid).effectApplied = [pid] := rfl
        rw [hlist] at hmem
        exact List.mem_singleton.mp hmem
      rw [this, hfc]
    · intro _ q
      rfl

theorem C9_single_consumption_witness :
    (powerUpRun puInit [PEvent.coll "p", PEvent.coll "q", PEvent.finish]).effectApplied.length
      ≤ 1 ∧
    (powerUpRun puInit [PEvent.coll "p", PEvent.coll "q", PEvent.finish]).despawnCount
      ≤ 1 ∧
    firstColl [PEvent.coll "p", PEvent.coll "q", PEvent.finish] = some "p" ∧
    powerUpStep (powerUpRun puInit [PEvent.coll "p", PEvent.coll "q", PEvent.finish])
        (PEvent.coll "r")
      = powerUpRun puInit [PEvent.coll "p", PEvent.coll "q", PEvent.finish] := by
  have h := C9_single_consumption [PEvent.coll "p", PEvent.coll "q", PEvent.finish]
  exact ⟨h.1, h.2.1, h.2.2.1 "p" (by decide), h.2.2.2 (by decide) "r"⟩

/-! ## C10 -/

/-- C10, the claim as stated fails: a spawned, never-thrown ball is NOT
catchable at every instant of its lifetime — after a single block collision
(e.g. the round-start ball settling onto the floor) its `bounceCount` is 1,
so `canBeCaught()` is false although the ball was never thrown (its
`thrower` is still `undefined`). -/
theorem C10_counterexample :
    (blockCollision (mkBall 1)).thrower = none ∧
    canBeCaughtAt 0 (blockCollision (mkBall 1)) = false := by
  constructor
  · rfl
  · rfl

/-- C10 (amended): a dodgeball that has been spawned but never thrown and
has not collided with any block has `canBeCaught() = true` at every instant
regardless of elapsed time, because the catch-window timer is armed only
inside `throw()` (the freshly spawned state has no deadline armed); hence a
catch succeeds at any time and despawns the ball without eliminating anyone,
since it has no thrower. -/
theorem C10_unthrown_ball_catchable (powerLevel : ℚ) (now : Nat) (cid : PlayerId)
    (ts : Option PlayerState) :
    canBeCaughtAt now (mkBall powerLevel) = true ∧
    (catchBall now (mkBall powerLevel) cid ts).1 = ts ∧
    ((catchBall now (mkBall powerLevel) cid ts).2).spawned = false := by
  refine ⟨rfl, ?_, ?_⟩ <;> cases ts <;> rfl

end Dodgeball
